import Mathlib

/-!
Verification development for the WABA connection service and its webhook
processing pipeline.  The definitions below are a shallow embedding of the
TypeScript sources: `Webhook` embeds the BullMQ worker
(`WebhookProcessor` in the queue processor file), `Waba` embeds the
`WabaService` (second, most complete variant of `waba.service.ts`).
Prisma tables are embedded as lists of rows; provider (Meta Graph API)
responses are supplied by a deterministic environment record; JavaScript
truthiness of strings and optional values is made explicit by the `js*`
helpers.  Wall-clock time is threaded as a `Nat` parameter `now`.
-/

/-- Constructor view of `Except` used to decide equality of results. -/
def exceptToSum {ε α : Type} : Except ε α → ε ⊕ α
  | .error e => .inl e
  | .ok a => .inr a

instance {ε α : Type} [DecidableEq ε] [DecidableEq α] : DecidableEq (Except ε α) :=
  fun a b =>
    decidable_of_iff (exceptToSum a = exceptToSum b)
      (by cases a <;> cases b <;> simp [exceptToSum])

/-- JS `a || b` for strings: the empty string is falsy. -/
def jsOrStr (a b : String) : String := if a == "" then b else a

/-- JS `a || b` where `a` is a possibly-undefined string. -/
def jsOrOptStr (a : Option String) (b : String) : String :=
  match a with
  | some s => jsOrStr s b
  | none => b

/-- JS truthiness of a possibly-undefined string. -/
def jsTruthyOptStr (o : Option String) : Bool :=
  match o with
  | some s => s != ""
  | none => false

/-- JS `a || b` yielding `null` when both are falsy (strings). -/
def jsOrOpt2 (a b : Option String) : Option String :=
  match a with
  | some s => if s == "" then (match b with
      | some t => if t == "" then none else some t
      | none => none) else some s
  | none => match b with
      | some t => if t == "" then none else some t
      | none => none

/-- Splitting a character list at `':'`, mirroring JS `String.split(':')`. -/
def splitAux : List Char → List Char → List (List Char)
  | [], acc => [acc.reverse]
  | c :: rest, acc =>
      if c == ':' then acc.reverse :: splitAux rest [] else splitAux rest (c :: acc)

/-- JS `s.split(':')`. -/
def splitColon (s : String) : List String := (splitAux s.data []).map String.mk

/-- JS `s.includes(':')`. -/
def includesColon (s : String) : Bool := s.data.contains ':'

/-- JS `hay.includes(needle)` (substring test). -/
def strIncludes (hay needle : String) : Bool :=
  hay.data.tails.any (fun t => needle.data.isPrefixOf t)

/-- JS `s.toLowerCase()` restricted to ASCII, as used on provider event kinds. -/
def lowerStr (s : String) : String := String.mk (s.data.map Char.toLower)

namespace Webhook

/-- Row of the `WabaAccount` table, restricted to the columns the processor reads. -/
structure WabaAccount where
  id : String
  wabaId : String
deriving DecidableEq

/-- Row of the `Conversation` table. -/
structure Conversation where
  id : Nat
  wabaAccountId : String
  contactNumber : String
  unreadCount : Nat
  lastAt : Nat
deriving DecidableEq

/-- Row of the `Message` table (`sender` embeds the `from` column,
`recipient` the `to` column; `from` is a Lean keyword). -/
structure Message where
  conversationId : Nat
  wabaAccountId : String
  messageId : String
  sender : String
  recipient : String
  direction : String
  status : String
  body : String
  updatedAt : Nat
deriving DecidableEq

/-- A provider template-status update object (`update.event`, `update.name`,
`update.message_template_name`). -/
structure TemplateUpdate where
  event : Option String
  name : Option String
  messageTemplateName : Option String
deriving DecidableEq

/-- A value stored under one key of a template `history` JSON object:
either the raw update object or a recorded timestamp. -/
inductive HistVal where
  | rawUpdate (u : TemplateUpdate)
  | timestamp (t : Nat)
deriving DecidableEq

/-- JS object assignment `obj[k] = v` on a JSON object kept as a key/value
list: overwrite the first binding of `k` in place, else append. -/
def setKey : List (String × HistVal) → String → HistVal → List (String × HistVal)
  | [], k, v => [(k, v)]
  | p :: rest, k, v =>
      if p.1 == k then (k, v) :: rest else p :: setKey rest k v

/-- Lookup of a key in a history object. -/
def lookupKey (m : List (String × HistVal)) (k : String) : Option HistVal :=
  (m.find? (fun p => p.1 == k)).map (fun p => p.2)

/-- Row of the `Template` table. -/
structure Template where
  id : Nat
  wabaAccountId : String
  name : String
  status : String
  history : List (String × HistVal)
deriving DecidableEq

/-- Row of the `WebhookEvent` table. -/
structure WebhookEvent where
  id : String
  processed : Bool
  error : Option String
deriving DecidableEq

/-- The database state touched by the processor.  `nextConvId` models the
id generator used by `conversation.create`. -/
structure DB where
  wabaAccounts : List WabaAccount
  conversations : List Conversation
  messages : List Message
  templates : List Template
  webhookEvents : List WebhookEvent
  nextConvId : Nat
deriving DecidableEq

/-- An inbound message object from a webhook payload
(`message.from`, `message.to`, `message.id`, `message.text.body`, `message.type`). -/
structure IncomingMessage where
  msgFrom : String
  msgTo : Option String
  id : String
  textBody : Option String
  msgType : String
deriving DecidableEq

/-- A delivery status object from a webhook payload. -/
structure StatusUpdate where
  id : String
  status : String
deriving DecidableEq

/-- `value.message_template_status_update` is either a single object or an
array (the source normalizes it with `Array.isArray`). -/
inductive TemplateUpdateField where
  | one (u : TemplateUpdate)
  | many (us : List TemplateUpdate)
deriving DecidableEq

/-- Normalization `Array.isArray(x) ? x : [x]` from the template branch. -/
def templateUpdateList : TemplateUpdateField → List TemplateUpdate
  | .one u => [u]
  | .many us => us

/-- A `change.value` object.  The `event` / `name` / `messageTemplateName`
fields are carried because the single-object template branch passes the whole
`value` to `updateTemplateStatus`. -/
structure Value where
  messages : Option (List IncomingMessage)
  statuses : Option (List StatusUpdate)
  templateStatusUpdate : Option TemplateUpdateField
  event : Option String
  name : Option String
  messageTemplateName : Option String
deriving DecidableEq

/-- The cast of a `value` object to a template update used by the branch
`updateTemplateStatus(wabaAccount.id, value)`. -/
def valueAsTemplateUpdate (v : Value) : TemplateUpdate :=
  { event := v.event, name := v.name, messageTemplateName := v.messageTemplateName }

/-- One element of `entry.changes`. -/
structure Change where
  field : String
  value : Value
deriving DecidableEq

/-- One element of `payload.entry`. -/
structure Entry where
  id : Option String
  changes : Option (List Change)
deriving DecidableEq

/-- A webhook payload (`payload.entry` missing is embedded as the empty list,
matching the `payload.entry?.[0]` optional access). -/
structure Payload where
  entry : List Entry
deriving DecidableEq

/-- The BullMQ job data together with `job.attemptsMade`. -/
structure JobData where
  eventId : String
  wabaId : String
  payload : Payload
  attemptsMade : Nat
deriving DecidableEq

/-- Lines 108-132 of the processor (`processMessage`, conversation part):
find the conversation by `(wabaAccountId, from)`; create it with
`unreadCount = 1` for inbound when absent; otherwise, for inbound,
bump `lastAt` and increment `unreadCount`.  Returns the new database and the
conversation id used for the message row. -/
def touchConversation (db : DB) (now : Nat) (wabaAccountId msgFrom direction : String) :
    DB × Nat :=
  match db.conversations.find?
      (fun c => c.wabaAccountId == wabaAccountId && c.contactNumber == msgFrom) with
  | none =>
      let conv : Conversation :=
        { id := db.nextConvId, wabaAccountId := wabaAccountId, contactNumber := msgFrom
          unreadCount := if direction == "inbound" then 1 else 0, lastAt := now }
      ({ db with conversations := db.conversations ++ [conv]
                 nextConvId := db.nextConvId + 1 }, conv.id)
  | some conv =>
      if direction == "inbound" then
        ({ db with conversations := db.conversations.map
                     (fun c => if c.id == conv.id then
                       { c with lastAt := now, unreadCount := c.unreadCount + 1 } else c) },
         conv.id)
      else (db, conv.id)

/-- Lines 134-153 of the processor (`processMessage`, message part):
`message.findFirst({ where: { messageId } })` gates the create — note the
filter is on `messageId` alone, not on the account. -/
def createMessageIfAbsent (db : DB) (now : Nat) (convId : Nat)
    (wabaAccountId messageId msgFrom msgTo direction body : String) : DB :=
  match db.messages.find? (fun msg => msg.messageId == messageId) with
  | some _ => db
  | none =>
      { db with messages := db.messages ++
          [{ conversationId := convId, wabaAccountId := wabaAccountId
             messageId := messageId, sender := msgFrom, recipient := msgTo
             direction := direction
             status := if direction == "inbound" then "delivered" else "pending"
             body := body, updatedAt := now }] }

/-- `processMessage` (processor lines 102-154).  `to` is
`message.to || message.id?.split(':')[0]` and `body` is
`message.text?.body || message.type`, with JS falsiness of `""`. -/
def processMessage (db : DB) (now : Nat) (wabaAccountId : String)
    (m : IncomingMessage) (direction : String) : DB :=
  let msgTo := jsOrOptStr m.msgTo ((splitColon m.id).headD "")
  let body := jsOrOptStr m.textBody m.msgType
  let step := touchConversation db now wabaAccountId m.msgFrom direction
  createMessageIfAbsent step.1 now step.2 wabaAccountId m.id m.msgFrom msgTo direction body

/-- `updateMessageStatus` (processor lines 156-170): overwrite the status of
every message row matching `(wabaAccountId, messageId)`. -/
def updateMessageStatus (db : DB) (now : Nat) (wabaAccountId : String)
    (s : StatusUpdate) : DB :=
  { db with messages := db.messages.map
              (fun m => if m.wabaAccountId == wabaAccountId && m.messageId == s.id then
                { m with status := s.status, updatedAt := now } else m) }

/-- `update.name || update.message_template_name` followed by the
`if (!templateName) return` guard. -/
def templateNameOf (u : TemplateUpdate) : Option String :=
  jsOrOpt2 u.name u.messageTemplateName

/-- `updateTemplateStatus` (processor lines 172-228).  The history is a JSON
object updated by key assignment: the raw update is written under the
`statusUpdate` key, a timestamp under the lowercased event kind, and (for
`APPROVED`) under the `approved` key.  When `update.event` is undefined and a
template is found, `event.toLowerCase()` raises a TypeError; errors carry the
database state at the throw point. -/
def updateTemplateStatus (db : DB) (now : Nat) (wabaAccountId : String)
    (update : TemplateUpdate) : Except (String × DB) DB :=
  match templateNameOf update with
  | none => .ok db
  | some templateName =>
    match db.templates.find?
        (fun t => t.wabaAccountId == wabaAccountId && t.name == templateName) with
    | none => .ok db
    | some template =>
      let status := if update.event == some "APPROVED" then "approved"
        else if update.event == some "REJECTED" then "rejected"
        else template.status
      let h1 := setKey template.history "statusUpdate" (.rawUpdate update)
      match update.event with
      | none => .error ("TypeError: Cannot read properties of undefined (reading toLowerCase)", db)
      | some ev =>
        let h2 := setKey h1 (lowerStr ev) (.timestamp now)
        let h3 := if ev == "APPROVED" then setKey h2 "approved" (.timestamp now) else h2
        .ok { db with templates := db.templates.map
                        (fun t => if t.id == template.id then
                          { t with status := status, history := h3 } else t) }

/-- Sequential application of a list of template updates; an error keeps the
mutations already performed. -/
def runTemplateUpdates (now : Nat) (wabaAccountId : String) :
    DB → List TemplateUpdate → Except (String × DB) DB
  | db, [] => .ok db
  | db, u :: rest =>
      match updateTemplateStatus db now wabaAccountId u with
      | .ok db2 => runTemplateUpdates now wabaAccountId db2 rest
      | .error e => .error e

/-- One iteration of the `for (const change of changes)` loop
(processor lines 35-68). -/
def processChange (db : DB) (now : Nat) (wabaAccountId : String) (c : Change) :
    Except (String × DB) DB :=
  let v := c.value
  let db1 := match v.messages with
    | some msgs => msgs.foldl (fun d mm => processMessage d now wabaAccountId mm "inbound") db
    | none => db
  let db2 := match v.statuses with
    | some sts => sts.foldl (fun d s => updateMessageStatus d now wabaAccountId s) db1
    | none => db1
  if c.field == "message_template_status_update" && jsTruthyOptStr v.event then
    updateTemplateStatus db2 now wabaAccountId (valueAsTemplateUpdate v)
  else
    match v.templateStatusUpdate with
    | some f => runTemplateUpdates now wabaAccountId db2 (templateUpdateList f)
    | none => .ok db2

/-- The `changes` loop. -/
def processChanges (now : Nat) (wabaAccountId : String) :
    DB → List Change → Except (String × DB) DB
  | db, [] => .ok db
  | db, c :: rest =>
      match processChange db now wabaAccountId c with
      | .ok db2 => processChanges now wabaAccountId db2 rest
      | .error e => .error e

/-- The success-path event update `data: { processed: true }` — the `error`
column is left untouched. -/
def markProcessed (db : DB) (eventId : String) : DB :=
  { db with webhookEvents := db.webhookEvents.map
                               (fun e => if e.id == eventId then { e with processed := true } else e) }

/-- The catch-path event update `data: { processed: true, error: message }`. -/
def markProcessedWithError (db : DB) (eventId msg : String) : DB :=
  { db with webhookEvents := db.webhookEvents.map
                               (fun e => if e.id == eventId then
                                 { e with processed := true, error := some msg } else e) }

/-- The `try` block of `process` (processor lines 14-75).  An empty
`payload.entry` returns without touching the event; a missing account throws;
`entryId` (line 22) is computed in the source but never used and is elided.
Errors carry the database as mutated up to the throw point. -/
def processTry (db : DB) (now : Nat) (job : JobData) : Except (String × DB) DB :=
  match job.payload.entry.head? with
  | none => .ok db
  | some entry =>
    match db.wabaAccounts.find? (fun a => a.wabaId == job.wabaId) with
    | none => .error ("WABA account not found: " ++ job.wabaId, db)
    | some wabaAccount =>
      match processChanges now wabaAccount.id db (entry.changes.getD []) with
      | .ok db2 => .ok (markProcessed db2 job.eventId)
      | .error e => .error e

/-- What one invocation of `process` leaves behind: the database and whether
the error was re-thrown to the queue (which triggers a BullMQ retry). -/
structure ProcessOutcome where
  db : DB
  rethrown : Bool
deriving DecidableEq

/-- `process` (processor lines 11-100): run the try block; on error, mark the
event processed with the error text, then re-throw exactly when
`job.attemptsMade < 3`. -/
def process (db : DB) (now : Nat) (job : JobData) : ProcessOutcome :=
  match processTry db now job with
  | .ok db2 => { db := db2, rethrown := false }
  | .error (msg, dbp) =>
      let db2 := markProcessedWithError dbp job.eventId msg
      if job.attemptsMade < 3 then { db := db2, rethrown := true }
      else { db := db2, rethrown := false }

end Webhook

namespace Waba

/-- A set of strings (the in-memory `usedCodes` set), kept as a duplicate-free
list.  `setInsert` is `Set.add`, `setRemove` is `Set.delete`. -/
def setInsert (l : List String) (a : String) : List String :=
  if l.contains a then l else a :: l

/-- `Set.delete`. -/
def setRemove (l : List String) (a : String) : List String :=
  l.filter (fun x => x != a)

/-- Service configuration read from the environment at construction. -/
structure Config where
  metaApiVersion : String
  metaAppId : String
  metaAppSecret : String
  frontendCallbackUrl : String
deriving DecidableEq

/-- Row of the `Shop` table. -/
structure Shop where
  id : String
  name : String
deriving DecidableEq

/-- Row of the `WabaAccount` table as written by the connection flow. -/
structure WabaAccountRow where
  id : String
  shopId : String
  wabaId : String
  businessId : Option String
  phoneId : Option String
  displayNumber : Option String
  encryptedToken : String
  tokenExpiresAt : Option Nat
  webhookVerified : Bool
  messagingEnabled : Bool
deriving DecidableEq

/-- The database state touched by the service.  `nextId` models the id
generator used by `wabaAccount.create`. -/
structure ServiceDb where
  shops : List Shop
  wabaAccounts : List WabaAccountRow
  nextId : Nat
deriving DecidableEq

/-- The mutable service state: the in-memory used-codes set plus the database. -/
structure ServiceState where
  usedCodes : List String
  db : ServiceDb
deriving DecidableEq

/-- An axios failure as inspected by the service: `error.message`,
`error.response?.data?.error?.message` and `error.response?.data?.error?.code`. -/
structure ApiError where
  message : String
  respErrorMessage : Option String
  respErrorCode : Option Int
deriving DecidableEq

/-- An exception escaping a step of the `try` block of `handleCallback`:
either an axios error or a `BadRequestException` thrown by the service itself. -/
inductive InnerErr where
  | api (e : ApiError)
  | badRequest (msg : String)
deriving DecidableEq

/-- `error.response?.data?.error?.message || error.message || "Unknown error"`
as computed in the outer catch. -/
def innerErrMsg : InnerErr → String
  | .api e => jsOrOptStr e.respErrorMessage (jsOrStr e.message "Unknown error")
  | .badRequest m => jsOrStr m "Unknown error"

/-- Token-endpoint response (`data.access_token`). -/
structure TokenResp where
  accessToken : String
deriving DecidableEq

/-- Long-lived token exchange response. -/
structure LongResp where
  accessToken : Option String
  expiresIn : Option Nat
deriving DecidableEq

/-- One entry of `debug_token` granular scopes. -/
structure GranularScope where
  scope : String
  targetIds : Option (List String)
deriving DecidableEq

/-- `debug_token` response data. -/
structure DebugInfo where
  granularScopes : Option (List GranularScope)
deriving DecidableEq

/-- `GET /{wabaId}` probe response (`data.id`, `data.business?.id`). -/
structure WabaInfo where
  id : Option String
  businessId : Option String
deriving DecidableEq

/-- One element of an `owned_whatsapp_business_accounts` listing. -/
structure WabaRef where
  id : String
deriving DecidableEq

/-- `GET /{wabaId}?fields=...` details response. -/
structure WabaDetails where
  id : Option String
  businessId : Option String
deriving DecidableEq

/-- One phone-number record. -/
structure PhoneRec where
  id : String
  displayPhoneNumber : Option String
  verifiedName : Option String
deriving DecidableEq

/-- Deterministic environment supplying provider responses for one callback
invocation.  Each field stands for one Graph API endpoint; the bounded-retry
wrapper `axiosWithRetry` is collapsed since a deterministic provider returns
the same answer on every retry. -/
structure Env where
  cfg : Config
  tokenExchange : Except ApiError TokenResp
  longExchange : Except ApiError LongResp
  debugToken : Except ApiError DebugInfo
  wabaInfo : String → Except ApiError WabaInfo
  ownedByBusiness : String → Except ApiError (List WabaRef)
  ownedDirect : Except ApiError (List WabaRef)
  wabaDetails : String → Except ApiError WabaDetails
  phoneNumbers : String → Except ApiError (List PhoneRec)

/-- Observable events of one invocation, in order: provider API calls, used-code
set mutations, and the fire-and-forget spawn of the webhook registration. -/
inductive Ev where
  | apiCall (endpoint : String)
  | markUsed (code : String)
  | unmarkUsed (code : String)
  | spawnRegisterWebhook (wabaId : String)
deriving DecidableEq

/-- The success payload returned by `handleCallback`. -/
structure SuccessInfo where
  wabaId : String
  businessId : Option String
  phoneId : Option String
  displayNumber : Option String
  webhookVerified : Bool
  messagingEnabled : Bool
  hasPhoneNumbers : Bool
  needsPhoneNumber : Bool
  shopName : String
  shopId : String
deriving DecidableEq

/-- A non-exceptional result of `handleCallback`: either a connected account
summary or the structured needs-further-signup redirect instruction. -/
inductive CallbackResult where
  | success (info : SuccessInfo)
  | needsEmbeddedSignup (message : String) (signupUrl : String)
deriving DecidableEq

/-- Messages thrown by the service (ASCII-normalized and truncated where the
source text is long; identity of the constants is all the proofs use). -/
def msgMissingShop : String :=
  "Missing shop identifier in OAuth state parameter. Please start the connection from the onboarding page."

/-- Shop-lookup failure message. -/
def msgInvalidShop : String :=
  "Invalid shop identifier. Please select a valid shop and try again."

/-- Replayed-code rejection message. -/
def msgCodeUsed : String :=
  "This authorization code has already been used. Please initiate a new connection from the onboarding page."

/-- Error-code-100 message for `existing` connections (Portuguese in the
source, ASCII-normalized and truncated here). -/
def msgExistingNotAccessible : String :=
  "Nao foi possivel acessar sua WABA existente. SOLUCAO: certifique-se de que sua WABA esta diretamente acessivel a sua conta pessoal do Facebook, ou use a opcao Criar nova WABA. Depois, tente conectar novamente."

/-- Message carried by the needs-further-signup result. -/
def msgNeedsSignup : String :=
  "Sua conta do Facebook nao tem acesso direto a uma Conta WhatsApp Business. Por favor, complete o processo de Cadastro Incorporado do Meta para criar uma nova WABA."

/-- Error-code-200 / permission failure message (truncated). -/
def msgPermission : String :=
  "Unable to access WhatsApp Business Account. Please ensure the required permissions were granted during OAuth and try again."

/-- Generic direct-access failure message (truncated). -/
def msgDirectFailed (errorMsg : String) : String :=
  "Failed to access WhatsApp Business Account: " ++ errorMsg ++ ". Please ensure your WABA is directly accessible to your Facebook account."

/-- Message thrown when every discovery method yields no account identifier. -/
def msgNoWaba : String :=
  "No WhatsApp Business Account found. Please ensure you have a WhatsApp Business Account that is directly accessible to your Facebook account."

/-- Placeholder display number recorded when the WABA has no phone numbers. -/
def msgNoPhonePlaceholder : String :=
  "No phone number - Add one in Meta Business Manager"

/-- Outer-catch wrapping of any exception from the `try` block. -/
def msgWrap (m : String) : String := "Failed to process WABA connection: " ++ m

/-- The opaque encryption collaborator (`EncryptionUtil.encrypt`). -/
def encrypt (s : String) : String := "enc(" ++ s ++ ")"

/-- The opaque decryption collaborator (`EncryptionUtil.decrypt`). -/
def decrypt (s : String) : String := "dec(" ++ s ++ ")"

/-- `getEmbeddedSignupUrl` (service lines 487-520): a pure URL builder over
the configuration, no provider call (URL-encoding of parameters elided). -/
def getEmbeddedSignupUrl (cfg : Config) (shopId connectionType : String) : String :=
  let redirectUri := jsOrStr cfg.frontendCallbackUrl "http://localhost:3001/onboarding/callback"
  "https://www.facebook.com/v" ++ cfg.metaApiVersion ++ "/dialog/oauth?client_id=" ++
    cfg.metaAppId ++ "&redirect_uri=" ++ redirectUri ++
    "&scope=whatsapp_business_messaging,whatsapp_business_management&state=" ++
    shopId ++ ":" ++ connectionType ++
    "&response_type=code&auth_type=rerequest&prompt=consent&display=page"

/-- `const parts = (state || "").split(":"); const shopId = parts[0] || state || null`. -/
def parseShopId (state : String) : Option String :=
  let p0 := (splitColon state).headD ""
  if p0 != "" then some p0 else if state != "" then some state else none

/-- `const connectionType = (parts[1] as ...) || "new"`. -/
def parseConnectionType (state : String) : String :=
  match (splitColon state)[1]? with
  | some c => if c == "" then "new" else c
  | none => "new"

/-- The scope-extraction loop over `tokenDebugInfo.granular_scopes`
(service lines 693-712): later matching scopes overwrite earlier ones; the
presence check `scope.target_ids` is truthy even for an empty array. -/
def extractScopeIds (scopes : List GranularScope) : List String × List String :=
  scopes.foldl
    (fun acc sc =>
      let w := if sc.scope == "whatsapp_business_management" then
          (match sc.targetIds with | some l => l | none => acc.1) else acc.1
      let b := if sc.scope == "business_management" then
          (match sc.targetIds with | some l => l | none => acc.2) else acc.2
      (w, b))
    ([], [])

/-- Result of the three-method account discovery: either fall-through with the
(possibly unresolved) identifier and the current business-id list, or the
early structured needs-further-signup return from the method-3 catch. -/
inductive ResolveOutcome where
  | cont (wabaId : Option String) (businessIds : List String)
  | needsSignup (message : String) (signupUrl : String)
deriving DecidableEq

/-- Method 1 (service lines 720-758): probe the first scope-derived WABA id;
on success adopt `data.id` and, when present, replace the business-id list
with the id of the owning business. -/
def method1 (env : Env) (wabaIdsFromToken businessIds : List String) :
    (Option String × List String) × List Ev :=
  match wabaIdsFromToken with
  | [] => ((none, businessIds), [])
  | w :: _ =>
    match env.wabaInfo w with
    | .error _ => ((none, businessIds), [Ev.apiCall "GET /waba-id"])
    | .ok info =>
      if jsTruthyOptStr info.id then
        let b2 := match info.businessId with
          | some b => if b != "" then [b] else businessIds
          | none => businessIds
        ((info.id, b2), [Ev.apiCall "GET /waba-id"])
      else ((none, businessIds), [Ev.apiCall "GET /waba-id"])

/-- Method 2 (service lines 760-794): list WABAs owned by the first
discovered business; best-effort. -/
def method2 (env : Env) (businessIds : List String) : Option String × List Ev :=
  match businessIds with
  | [] => (none, [])
  | b :: _ =>
    match env.ownedByBusiness b with
    | .error _ => (none, [Ev.apiCall "GET /business/owned_whatsapp_business_accounts"])
    | .ok [] => (none, [Ev.apiCall "GET /business/owned_whatsapp_business_accounts"])
    | .ok (r :: _) => (some r.id, [Ev.apiCall "GET /business/owned_whatsapp_business_accounts"])

/-- Method 3 with its catch (service lines 796-893): list WABAs owned by the
authenticated identity.  An empty listing is NOT an error — it falls through.
A failure with provider error code 100 branches on the connection mode:
`existing` throws the descriptive message, `new` returns the structured
needs-further-signup result built from a fresh signup URL.  Code 200 or a
permission-mentioning message throws the permission message; anything else
throws the generic direct-access failure. -/
def method3 (env : Env) (state : String) (businessIds : List String) :
    Except InnerErr ResolveOutcome × List Ev :=
  match env.ownedDirect with
  | .ok [] => (.ok (.cont none businessIds), [Ev.apiCall "GET /me/owned_whatsapp_business_accounts"])
  | .ok (r :: _) => (.ok (.cont (some r.id) businessIds), [Ev.apiCall "GET /me/owned_whatsapp_business_accounts"])
  | .error e =>
    let errorMsg := jsOrOptStr e.respErrorMessage e.message
    let evs := [Ev.apiCall "GET /me/owned_whatsapp_business_accounts"]
    if e.respErrorCode == some 100 then
      let connectionType := if includesColon state then (splitColon state).getD 1 "" else "new"
      let shopIdFromState := if includesColon state then (splitColon state).headD "" else state
      if connectionType == "existing" then
        (.error (.badRequest msgExistingNotAccessible), evs)
      else
        (.ok (.needsSignup msgNeedsSignup
          (getEmbeddedSignupUrl env.cfg (jsOrStr shopIdFromState state) "new")), evs)
    else if e.respErrorCode == some 200 || strIncludes errorMsg "permission" then
      (.error (.badRequest msgPermission), evs)
    else
      (.error (.badRequest (msgDirectFailed (jsOrStr errorMsg "Unknown error"))), evs)

/-- The discovery cascade of `handleCallback` (service lines 717-893). -/
def resolveWaba (env : Env) (state : String) (wabaIdsFromToken businessIds0 : List String) :
    Except InnerErr ResolveOutcome × List Ev :=
  let r1 := method1 env wabaIdsFromToken businessIds0
  match r1.1.1 with
  | some w => (.ok (.cont (some w) r1.1.2), r1.2)
  | none =>
    let r2 := method2 env r1.1.2
    match r2.1 with
    | some w => (.ok (.cont (some w) r1.1.2), r1.2 ++ r2.2)
    | none =>
      let r3 := method3 env state r1.1.2
      (r3.1, r1.2 ++ r2.2 ++ r3.2)

/-- Business-id / messaging-enabled resolution (service lines 902-947): when
the scope-derived business list is nonempty its head is adopted and messaging
is enabled; otherwise the WABA details call is tried, with its failure caught
and messaging assumed enabled. -/
def resolveBusinessDetails (env : Env) (wabaId : String) (businessIds : List String) :
    (Option String × Bool) × List Ev :=
  match businessIds with
  | b :: _ => ((some b, true), [])
  | [] =>
    match env.wabaDetails wabaId with
    | .ok d =>
      let businessId := match d.businessId with
        | some b => if b != "" then some b else none
        | none => none
      ((businessId, jsTruthyOptStr d.id), [Ev.apiCall "GET /waba-details"])
    | .error _ => ((none, true), [Ev.apiCall "GET /waba-details"])

/-- Phone-number discovery (service lines 949-986): best-effort; on a
nonempty listing the first record supplies the id and the display string
`display_phone_number || verified_name || id`. -/
def resolvePhones (env : Env) (wabaId : String) :
    (Option String × Option String × Bool) × List Ev :=
  match env.phoneNumbers wabaId with
  | .ok (p :: _) =>
      ((some p.id,
        some (jsOrOptStr p.displayPhoneNumber (jsOrOptStr p.verifiedName p.id)),
        true), [Ev.apiCall "GET /phone_numbers"])
  | .ok [] => ((none, none, false), [Ev.apiCall "GET /phone_numbers"])
  | .error _ => ((none, none, false), [Ev.apiCall "GET /phone_numbers"])

/-- The account upsert (service lines 1000-1032): find by the unique
`wabaId`; update in place when present, create (with `webhookVerified` at its
schema default `false`) when absent.  Returns the written row. -/
def upsertWabaAccount (db : ServiceDb) (shopId wabaId : String)
    (businessId phoneId displayNumber : Option String)
    (encryptedToken : String) (tokenExpiresAt : Option Nat)
    (messagingEnabled : Bool) : ServiceDb × WabaAccountRow :=
  match db.wabaAccounts.find? (fun a => a.wabaId == wabaId) with
  | some existing =>
    let row := { existing with
                   shopId := shopId, businessId := businessId, phoneId := phoneId
                   displayNumber := displayNumber, encryptedToken := encryptedToken
                   tokenExpiresAt := tokenExpiresAt, messagingEnabled := messagingEnabled }
    ({ db with wabaAccounts := db.wabaAccounts.map
                 (fun a => if a.wabaId == wabaId then
                   { a with
                       shopId := shopId, businessId := businessId, phoneId := phoneId
                       displayNumber := displayNumber, encryptedToken := encryptedToken
                       tokenExpiresAt := tokenExpiresAt
                       messagingEnabled := messagingEnabled } else a) }, row)
  | none =>
    let row : WabaAccountRow :=
      { id := "wacc-" ++ toString db.nextId, shopId := shopId, wabaId := wabaId
        businessId := businessId, phoneId := phoneId, displayNumber := displayNumber
        encryptedToken := encryptedToken, tokenExpiresAt := tokenExpiresAt
        webhookVerified := false, messagingEnabled := messagingEnabled }
    ({ db with wabaAccounts := db.wabaAccounts ++ [row], nextId := db.nextId + 1 }, row)

/-- The body of the `try` block after the code exchange succeeded (service
lines 632-1063).  The used-codes set is not in scope here: the source never
touches it after line 630, which this signature makes structural.  The
fire-and-forget webhook registration is recorded as a spawn event only; its
effects belong to a detached task that the caller never joins. -/
def afterExchange (env : Env) (now : Nat) (db : ServiceDb)
    (state shopId accessToken0 : String) :
    Except InnerErr CallbackResult × ServiceDb × List Ev :=
  let step1 : String × Option Nat × List Ev :=
    match env.longExchange with
    | .ok r =>
      if jsTruthyOptStr r.accessToken then
        (r.accessToken.getD accessToken0,
         (match r.expiresIn with
          | some n => if n != 0 then some (now + n * 1000) else none
          | none => none),
         [Ev.apiCall "GET /oauth/access_token fb_exchange_token"])
      else (accessToken0, none, [Ev.apiCall "GET /oauth/access_token fb_exchange_token"])
    | .error _ => (accessToken0, none, [Ev.apiCall "GET /oauth/access_token fb_exchange_token"])
  let accessToken := step1.1
  let tokenExpiresAt := step1.2.1
  let evs1 := step1.2.2
  let step2 : List String × List String :=
    match env.debugToken with
    | .ok info =>
      match info.granularScopes with
      | some scopes => extractScopeIds scopes
      | none => ([], [])
    | .error _ => ([], [])
  let evs2 := [Ev.apiCall "GET /debug_token"]
  match resolveWaba env state step2.1 step2.2 with
  | (.error e, evs3) => (.error e, db, evs1 ++ evs2 ++ evs3)
  | (.ok (.needsSignup m url), evs3) =>
      (.ok (.needsEmbeddedSignup m url), db, evs1 ++ evs2 ++ evs3)
  | (.ok (.cont none _), evs3) =>
      (.error (.badRequest msgNoWaba), db, evs1 ++ evs2 ++ evs3)
  | (.ok (.cont (some wabaId) businessIds), evs3) =>
      let bd := resolveBusinessDetails env wabaId businessIds
      let ph := resolvePhones env wabaId
      let hasPhones := ph.1.2.2
      let phoneId := if hasPhones then ph.1.1 else some ("pending-" ++ wabaId)
      let displayNumber := if hasPhones then ph.1.2.1 else some msgNoPhonePlaceholder
      let up := upsertWabaAccount db shopId wabaId bd.1.1 phoneId displayNumber
                  (encrypt accessToken) tokenExpiresAt (bd.1.2 || hasPhones)
      let shopName := match up.1.shops.find? (fun s => s.id == shopId) with
        | some s => jsOrStr s.name "Unknown Shop"
        | none => "Unknown Shop"
      (.ok (.success
        { wabaId := up.2.wabaId, businessId := up.2.businessId, phoneId := up.2.phoneId
          displayNumber := up.2.displayNumber, webhookVerified := up.2.webhookVerified
          messagingEnabled := up.2.messagingEnabled, hasPhoneNumbers := hasPhones
          needsPhoneNumber := !hasPhones, shopName := shopName, shopId := shopId }),
       up.1,
       evs1 ++ evs2 ++ evs3 ++ bd.2 ++ ph.2 ++ [Ev.spawnRegisterWebhook wabaId])

/-- `handleCallback` (service lines 566-1083).  The three guards before the
`try` block (missing shop id, unknown shop, replayed code) throw unwrapped and
leave the state untouched; inside the `try`, a successful token exchange
immediately marks the code used; the outer catch removes the code from the
used set and wraps the error text.  The result triple is
(result, new service state, ordered event trace). -/
def handleCallback (env : Env) (now : Nat) (st : ServiceState) (code state : String) :
    Except String CallbackResult × ServiceState × List Ev :=
  match parseShopId state with
  | none => (.error msgMissingShop, st, [])
  | some shopId =>
    match st.db.shops.find? (fun s => s.id == shopId) with
    | none => (.error msgInvalidShop, st, [])
    | some _shop =>
      if st.usedCodes.contains code then
        (.error msgCodeUsed, st, [])
      else
        match env.tokenExchange with
        | .error e =>
            (.error (msgWrap (innerErrMsg (.api e))),
             { st with usedCodes := setRemove st.usedCodes code },
             [Ev.apiCall "GET /oauth/access_token code"])
        | .ok tr =>
            let used1 := setInsert st.usedCodes code
            let body := afterExchange env now st.db state shopId tr.accessToken
            match body.1 with
            | .ok r =>
                (.ok r, { usedCodes := used1, db := body.2.1 },
                 Ev.apiCall "GET /oauth/access_token code" :: Ev.markUsed code :: body.2.2)
            | .error e =>
                (.error (msgWrap (innerErrMsg e)),
                 { usedCodes := setRemove used1 code, db := body.2.1 },
                 Ev.apiCall "GET /oauth/access_token code" :: Ev.markUsed code ::
                   (body.2.2 ++ [Ev.unmarkUsed code]))

/-- Environment for the webhook subscription registration: the
`POST /{wabaId}/subscribed_apps` call, keyed by WABA id and bearer token. -/
structure RegEnv where
  subscribedApps : String → String → Except ApiError Unit

/-- `registerWebhook` (service lines 1088-1121): subscribe, then set
`webhookVerified`; the catch logs and deliberately does not rethrow
(source comment: registration failure must not break the connection flow). -/
def registerWebhook (env : RegEnv) (db : ServiceDb) (wabaId accessToken : String) :
    Except String ServiceDb :=
  match env.subscribedApps wabaId accessToken with
  | .ok _ =>
      .ok { db with wabaAccounts := db.wabaAccounts.map
                      (fun a => if a.wabaId == wabaId then
                        { a with webhookVerified := true } else a) }
  | .error _ => .ok db

/-- `registerWebhookForAccount` (service lines 1126-1141): the explicit
re-registration entry point; throws only when the account row is missing,
then delegates to `registerWebhook`. -/
def registerWebhookForAccount (env : RegEnv) (db : ServiceDb) (accountId : String) :
    Except String ServiceDb :=
  match db.wabaAccounts.find? (fun a => a.id == accountId) with
  | none => .error ("WABA account not found: " ++ accountId)
  | some acc => registerWebhook env db acc.wabaId (decrypt acc.encryptedToken)

end Waba

/-! Concrete scenario data used by counterexamples and witnesses. -/

/-- Number of message rows carrying a given provider message identifier. -/
def msgCount (db : Webhook.DB) (mid : String) : Nat :=
  (db.messages.filter (fun msg => msg.messageId == mid)).length

/-- A concrete inbound message. -/
def exMsg : Webhook.IncomingMessage :=
  { msgFrom := "5511999887766", msgTo := some "15550001111", id := "wamid.HBgA1"
    textBody := some "ola", msgType := "text" }

/-- A `change.value` carrying only `exMsg`. -/
def exValue : Webhook.Value :=
  { messages := some [exMsg], statuses := none, templateStatusUpdate := none
    event := none, name := none, messageTemplateName := none }

/-- A payload with one entry and one message change. -/
def exPayload : Webhook.Payload :=
  { entry := [{ id := some "entry1", changes := some [{ field := "messages", value := exValue }] }] }

/-- The job delivering `exPayload` for account `waba1`, event `evt1`. -/
def exJob : Webhook.JobData :=
  { eventId := "evt1", wabaId := "waba1", payload := exPayload, attemptsMade := 1 }

/-- Initial database for the duplicate-delivery scenario: the account exists,
the event row is unprocessed, nothing else. -/
def exDb : Webhook.DB :=
  { wabaAccounts := [{ id := "acc1", wabaId := "waba1" }], conversations := []
    messages := [], templates := []
    webhookEvents := [{ id := "evt1", processed := false, error := none }], nextConvId := 0 }

/-- Parametric initial database for the retry scenario: the event row exists
and is unprocessed, and the WABA account is absent. -/
def retryDb (eventId : String) : Webhook.DB :=
  { wabaAccounts := [], conversations := [], messages := [], templates := []
    webhookEvents := [{ id := eventId, processed := false, error := none }], nextConvId := 0 }

/-- The single entry of `retryPayload`. -/
def retryEntry (m : Webhook.IncomingMessage) : Webhook.Entry :=
  { id := none, changes := some [{ field := "messages", value :=
      { messages := some [m], statuses := none, templateStatusUpdate := none
        event := none, name := none, messageTemplateName := none } }] }

/-- Parametric payload delivering one inbound message. -/
def retryPayload (m : Webhook.IncomingMessage) : Webhook.Payload :=
  { entry := [retryEntry m] }

/-- Parametric job for attempt `n` of the retry scenario. -/
def retryJob (eventId wabaId : String) (m : Webhook.IncomingMessage) (n : Nat) : Webhook.JobData :=
  { eventId := eventId, wabaId := wabaId, payload := retryPayload m, attemptsMade := n }

/-- A pending template with empty history. -/
def exTemplate : Webhook.Template :=
  { id := 1, wabaAccountId := "acc5", name := "promo", status := "pending", history := [] }

/-- Database holding only `exTemplate`. -/
def exTemplateDb : Webhook.DB :=
  { wabaAccounts := [], conversations := [], messages := [], templates := [exTemplate]
    webhookEvents := [], nextConvId := 0 }

/-- An `APPROVED` status update addressed to `exTemplate`. -/
def exApproved : Webhook.TemplateUpdate :=
  { event := some "APPROVED", name := some "promo", messageTemplateName := none }

/-- A service configuration used in concrete scenarios. -/
def exCfg : Waba.Config :=
  { metaApiVersion := "21.0", metaAppId := "app1", metaAppSecret := "sec1"
    frontendCallbackUrl := "https://app.example/onboarding/callback" }

/-- A generic provider failure without structured response data. -/
def plainApiError : Waba.ApiError :=
  { message := "network down", respErrorMessage := none, respErrorCode := none }

/-- The provider failure with error code 100 raised by the direct listing. -/
def code100Error : Waba.ApiError :=
  { message := "request failed"
    respErrorMessage := some "Unsupported get request", respErrorCode := some 100 }

/-- Environment in which the token exchange succeeds, the best-effort steps
fail, and the direct WABA listing succeeds with an empty result. -/
def envEmptyListing : Waba.Env :=
  { cfg := exCfg, tokenExchange := .ok { accessToken := "tok" }
    longExchange := .error plainApiError, debugToken := .error plainApiError
    wabaInfo := fun _ => .error plainApiError
    ownedByBusiness := fun _ => .error plainApiError
    ownedDirect := .ok []
    wabaDetails := fun _ => .error plainApiError
    phoneNumbers := fun _ => .error plainApiError }

/-- As `envEmptyListing` but the direct listing fails with error code 100. -/
def envCode100 : Waba.Env :=
  { envEmptyListing with ownedDirect := .error code100Error }

/-- Environment in which already the token exchange fails. -/
def envExchangeFails : Waba.Env :=
  { envEmptyListing with tokenExchange := .error plainApiError }

/-- Service state with one shop named `Loja` and no connected accounts. -/
def exServiceState : Waba.ServiceState :=
  { usedCodes := [], db := { shops := [{ id := "shop1", name := "Loja" }], wabaAccounts := [], nextId := 0 } }

/-- `exServiceState` after code `c1` has been recorded as used. -/
def exServiceStateUsed : Waba.ServiceState :=
  { exServiceState with usedCodes := ["c1"] }

/-- A connected account row whose webhook is not yet verified. -/
def exAccountRow : Waba.WabaAccountRow :=
  { id := "a1", shopId := "shop1", wabaId := "w1", businessId := none, phoneId := none
    displayNumber := none, encryptedToken := "enc(tok)", tokenExpiresAt := none
    webhookVerified := false, messagingEnabled := true }

/-- A service database holding only `exAccountRow`. -/
def exRegDb : Waba.ServiceDb := { shops := [], wabaAccounts := [exAccountRow], nextId := 1 }

/-- A registration environment whose subscription call always fails. -/
def regEnvFail : Waba.RegEnv := { subscribedApps := fun _ _ => .error plainApiError }

/-- A registration environment whose subscription call always succeeds. -/
def regEnvOk : Waba.RegEnv := { subscribedApps := fun _ _ => .ok () }

/-- A job whose payload carries no entry at all. -/
def emptyJob : Webhook.JobData :=
  { eventId := "evt0", wabaId := "waba1", payload := { entry := [] }, attemptsMade := 0 }

/-- First attempt of the concrete fail-fail-succeed scenario: the account row
is missing, so processing throws after marking the event with the error. -/
def c3r1 : Webhook.ProcessOutcome :=
  Webhook.process (retryDb "evt3") 1 (retryJob "evt3" "w3" exMsg 1)

/-- Second attempt, account row still missing. -/
def c3r2 : Webhook.ProcessOutcome :=
  Webhook.process c3r1.db 2 (retryJob "evt3" "w3" exMsg 2)

/-- Between the second and third attempt the missing account row appears
(the transient cause of the first two failures is gone). -/
def c3dbFixed : Webhook.DB :=
  { c3r2.db with wabaAccounts := [{ id := "acc3", wabaId := "w3" }] }

/-- Third attempt: processing succeeds. -/
def c3r3 : Webhook.ProcessOutcome :=
  Webhook.process c3dbFixed 3 (retryJob "evt3" "w3" exMsg 3)

/-- A template-status update with an unrecognized kind addressed to `exTemplate`. -/
def exFlagged : Webhook.TemplateUpdate :=
  { event := some "FLAGGED", name := some "promo", messageTemplateName := none }

/-- Boolean success view of an `Except`. -/
def isOkE {ε α : Type} : Except ε α → Bool
  | .ok _ => true
  | .error _ => false

/-- An empty service database. -/
def emptyRegDb : Waba.ServiceDb := { shops := [], wabaAccounts := [], nextId := 0 }

/-! Theorems. -/

set_option maxRecDepth 100000

/-- The conversation step never touches the message table. -/
theorem touchConversation_messages (db : Webhook.DB) (now : Nat) (acc frm dir : String) :
    (Webhook.touchConversation db now acc frm dir).1.messages = db.messages := by
  unfold Webhook.touchConversation
  split
  · rfl
  · split <;> rfl

/-- When a row with the identifier exists, the create step is the identity. -/
theorem createMessageIfAbsent_found {db : Webhook.DB} {now convId : Nat}
    {acc mid frm mto dir body : String} {m0 : Webhook.Message}
    (h : db.messages.find? (fun msg => msg.messageId == mid) = some m0) :
    Webhook.createMessageIfAbsent db now convId acc mid frm mto dir body = db := by
  unfold Webhook.createMessageIfAbsent
  rw [h]

/-- When no row with the identifier exists, the create step appends one row. -/
theorem createMessageIfAbsent_not_found {db : Webhook.DB} {now convId : Nat}
    {acc mid frm mto dir body : String}
    (h : db.messages.find? (fun msg => msg.messageId == mid) = none) :
    Webhook.createMessageIfAbsent db now convId acc mid frm mto dir body =
      { db with messages := db.messages ++
          [{ conversationId := convId, wabaAccountId := acc
             messageId := mid, sender := frm, recipient := mto
             direction := dir
             status := if dir == "inbound" then "delivered" else "pending"
             body := body, updatedAt := now }] } := by
  unfold Webhook.createMessageIfAbsent
  rw [h]

/-- Zero matching rows means the lookup finds nothing. -/
theorem find?_eq_none_of_msgCount_zero {db : Webhook.DB} {mid : String}
    (h : msgCount db mid = 0) :
    db.messages.find? (fun msg => msg.messageId == mid) = none := by
  rw [List.find?_eq_none]
  intro x hx hpx
  have hmem : x ∈ db.messages.filter (fun msg => msg.messageId == mid) :=
    List.mem_filter.mpr ⟨hx, hpx⟩
  unfold msgCount at h
  rw [List.length_eq_zero] at h
  rw [h] at hmem
  exact absurd hmem (List.not_mem_nil x)

/-- When a row with the identifier was found, `processMessage` leaves the
message table unchanged. -/
theorem processMessage_messages_of_found {db : Webhook.DB} {now : Nat}
    {acc dir : String} {m : Webhook.IncomingMessage} {m0 : Webhook.Message}
    (h : db.messages.find? (fun msg => msg.messageId == m.id) = some m0) :
    (Webhook.processMessage db now acc m dir).messages = db.messages := by
  have hms := touchConversation_messages db now acc m.msgFrom dir
  simp only [Webhook.processMessage]
  rw [createMessageIfAbsent_found (by rw [hms]; exact h), hms]

/-- If some row already carries the identifier, `processMessage` leaves the
message table unchanged. -/
theorem processMessage_messages_of_exists {db : Webhook.DB} {now : Nat}
    {acc dir : String} {m : Webhook.IncomingMessage}
    (h : ∃ mr ∈ db.messages, mr.messageId = m.id) :
    (Webhook.processMessage db now acc m dir).messages = db.messages := by
  obtain ⟨mr, hmem, hid⟩ := h
  cases hf : db.messages.find? (fun msg => msg.messageId == m.id) with
  | none =>
      exfalso
      rw [List.find?_eq_none] at hf
      exact hf mr hmem (by simp [hid])
  | some m0 => exact processMessage_messages_of_found hf

/-- C10: a webhook job whose payload contains no entry is a complete no-op:
`process` returns successfully (nothing is re-thrown to the queue) and the
database — conversations, messages, templates, and in particular the
`WebhookEvent` row, which keeps `processed = false` with no error — is
returned unchanged. -/
theorem C10_empty_payload_entry_is_noop (db : Webhook.DB) (now : Nat)
    (job : Webhook.JobData) (h : job.payload.entry = []) :
    (Webhook.process db now job).db = db ∧
    (Webhook.process db now job).rethrown = false := by
  simp [Webhook.process, Webhook.processTry, h]

/-- Witness for C10 at a concrete empty-payload job. -/
theorem C10_empty_payload_entry_is_noop_witness :
    emptyJob.payload.entry = [] ∧
    ((Webhook.process exDb 0 emptyJob).db = exDb ∧
     (Webhook.process exDb 0 emptyJob).rethrown = false) :=
  ⟨rfl, C10_empty_payload_entry_is_noop exDb 0 emptyJob rfl⟩

/-- C1: evaluation of the processor at the failing input.  Delivering the same
job (same payload, same provider message identifier `wamid.HBgA1`) twice
leaves a single message row, but the unread counter of the conversation goes
from 1 to 2: the increment at lines 124-131 runs before — and independently of
— the message-existence check at lines 135-137, so re-processing
double-increments, although the `entryId` computed at line 22 under the
comment `Idempotency check` is never used.  This contradicts the claim that
the create-check gates the increment. -/
theorem C1_duplicate_job_double_increments_unread :
    ((Webhook.process exDb 5 exJob).db.conversations.map (fun c => c.unreadCount) = [1]) ∧
    ((Webhook.process (Webhook.process exDb 5 exJob).db 6 exJob).db.conversations.map
        (fun c => c.unreadCount) = [2]) ∧
    msgCount (Webhook.process (Webhook.process exDb 5 exJob).db 6 exJob).db exMsg.id = 1 := by
  decide

/-- C2: when no message row carries the identifier yet, the first processing
creates exactly one row, whose body and direction come from that first
payload, and every later duplicate (any number of them) leaves the message
table — hence body and direction — unchanged and performs no insert. -/
theorem C2_duplicate_jobs_create_single_message_row
    (db : Webhook.DB) (now : Nat) (acc : String) (m : Webhook.IncomingMessage)
    (dir : String) (h : msgCount db m.id = 0) :
    msgCount (Webhook.processMessage db now acc m dir) m.id = 1 ∧
    (∀ mr ∈ (Webhook.processMessage db now acc m dir).messages, mr.messageId = m.id →
      mr.body = jsOrOptStr m.textBody m.msgType ∧ mr.direction = dir) ∧
    (∀ n : Nat, ((fun d => Webhook.processMessage d now acc m dir)^[n]
        (Webhook.processMessage db now acc m dir)).messages =
      (Webhook.processMessage db now acc m dir).messages) := by
  have hfind0 : db.messages.find? (fun msg => msg.messageId == m.id) = none :=
    find?_eq_none_of_msgCount_zero h
  have hms := touchConversation_messages db now acc m.msgFrom dir
  have hfind : (Webhook.touchConversation db now acc m.msgFrom dir).1.messages.find?
      (fun msg => msg.messageId == m.id) = none := by rw [hms]; exact hfind0
  have key : ∃ row : Webhook.Message, row.messageId = m.id ∧
      row.body = jsOrOptStr m.textBody m.msgType ∧ row.direction = dir ∧
      (Webhook.processMessage db now acc m dir).messages = db.messages ++ [row] := by
    simp only [Webhook.processMessage]
    rw [createMessageIfAbsent_not_found hfind]
    exact ⟨_, rfl, rfl, rfl, by rw [hms]⟩
  obtain ⟨row, hid, hbody, hdir, hmsg⟩ := key
  refine ⟨?_, ?_, ?_⟩
  · unfold msgCount at h ⊢
    rw [hmsg, List.filter_append, List.length_append, h]
    simp [hid]
  · intro mr hmem hid2
    rw [hmsg] at hmem
    rcases List.mem_append.mp hmem with hl | hr
    · exfalso
      rw [List.find?_eq_none] at hfind0
      exact hfind0 mr hl (by simp [hid2])
    · rw [List.mem_singleton.mp hr]
      exact ⟨hbody, hdir⟩
  · intro n
    induction n with
    | zero => rfl
    | succ k ih =>
        rw [Function.iterate_succ_apply']
        rw [processMessage_messages_of_exists ⟨row, by rw [ih, hmsg]; simp, hid⟩, ih]

/-- Witness for C2: a concrete fresh database and inbound message. -/
theorem C2_duplicate_jobs_create_single_message_row_witness :
    msgCount exDb exMsg.id = 0 ∧
    msgCount (Webhook.processMessage exDb 5 "acc1" exMsg "inbound") exMsg.id = 1 :=
  ⟨by decide,
   (C2_duplicate_jobs_create_single_message_row exDb 5 "acc1" exMsg "inbound" (by decide)).1⟩

/-- C3 counterexample: a job whose account row is missing on attempts 1 and 2
(the processor throws and re-throws to the queue) and present on attempt 3
(the processor succeeds).  The final event has `processed = true` but the
error recorded by attempt 2 is still there — the success-path update writes
only `processed` and never clears `error` — refuting the claim that the final
state has no error recorded.  The side effects do occur exactly once. -/
theorem C3_counterexample :
    c3r1.rethrown = true ∧ c3r2.rethrown = true ∧ c3r3.rethrown = false ∧
    c3r3.db.webhookEvents =
      [{ id := "evt3", processed := true, error := some "WABA account not found: w3" }] ∧
    msgCount c3r3.db exMsg.id = 1 ∧
    c3r3.db.conversations.map (fun c => c.unreadCount) = [1] := by
  decide

/-- C3 amended: for every fail-fail-succeed run in which the failing attempts
throw before any side effect (here: the account row is missing and appears
only before attempt 3), the final `WebhookEvent` has `processed = true` and
the Message/Conversation side effects occur exactly once — but the error text
of the last failed attempt remains recorded, because the success-path update
sets only `processed` and does not clear the `error` column. -/
theorem C3_amended_success_keeps_last_error (eventId wabaId accId : String)
    (m : Webhook.IncomingMessage) (t1 t2 t3 : Nat) :
    let r1 := Webhook.process (retryDb eventId) t1 (retryJob eventId wabaId m 1)
    let r2 := Webhook.process r1.db t2 (retryJob eventId wabaId m 2)
    let r3 := Webhook.process
      { r2.db with wabaAccounts := [{ id := accId, wabaId := wabaId }] } t3
      (retryJob eventId wabaId m 3)
    r1.rethrown = true ∧ r2.rethrown = true ∧ r3.rethrown = false ∧
    r3.db.webhookEvents =
      [{ id := eventId, processed := true
         error := some ("WABA account not found: " ++ wabaId) }] ∧
    r3.db.messages.map (fun mr => mr.messageId) = [m.id] ∧
    r3.db.conversations.map (fun c => c.unreadCount) = [1] := by
  simp [Webhook.process, Webhook.processTry, Webhook.processChanges, Webhook.processChange,
        Webhook.processMessage, Webhook.touchConversation, Webhook.createMessageIfAbsent,
        Webhook.markProcessed, Webhook.markProcessedWithError,
        retryDb, retryJob, retryPayload, retryEntry]

/-- C4 counterexample: a job whose provider account identifier matches no
stored account, arriving with attempt count 1.  The event is marked processed
with the error, but the processor re-throws (`rethrown = true`), which makes
the queue retry the job — refuting the claim that a missing account does not
trigger a retry. -/
theorem C4_counterexample :
    (Webhook.process (retryDb "evt4") 0 (retryJob "evt4" "w4" exMsg 1)).rethrown = true ∧
    (Webhook.process (retryDb "evt4") 0 (retryJob "evt4" "w4" exMsg 1)).db.webhookEvents =
      [{ id := "evt4", processed := true, error := some "WABA account not found: w4" }] := by
  decide

/-- C4 amended: a job whose provider account identifier matches no stored
account marks the `WebhookEvent` processed with the error recorded, and the
error is re-thrown — triggering a queue retry — exactly when the attempt
count is below the fixed ceiling of 3; the missing account is handled by the
generic catch, not as a distinct non-retryable class. -/
theorem C4_missing_account_is_retried_below_ceiling
    (db : Webhook.DB) (now : Nat) (job : Webhook.JobData)
    (e : Webhook.Entry) (es : List Webhook.Entry)
    (hentry : job.payload.entry = e :: es)
    (hacc : db.wabaAccounts.find? (fun a => a.wabaId == job.wabaId) = none) :
    (Webhook.process db now job).db =
      Webhook.markProcessedWithError db job.eventId
        ("WABA account not found: " ++ job.wabaId) ∧
    ((Webhook.process db now job).rethrown = true ↔ job.attemptsMade < 3) := by
  have hp : Webhook.processTry db now job =
      .error ("WABA account not found: " ++ job.wabaId, db) := by
    unfold Webhook.processTry
    rw [hentry]
    simp [hacc]
  unfold Webhook.process
  rw [hp]
  by_cases hlt : job.attemptsMade < 3 <;> simp [hlt]

/-- Witness for C4 at a concrete missing-account job with attempt count 0. -/
theorem C4_missing_account_is_retried_below_ceiling_witness :
    (retryJob "evt4" "w4" exMsg 0).payload.entry = retryEntry exMsg :: [] ∧
    (retryDb "evt4").wabaAccounts.find?
      (fun a => a.wabaId == (retryJob "evt4" "w4" exMsg 0).wabaId) = none ∧
    ((Webhook.process (retryDb "evt4") 0 (retryJob "evt4" "w4" exMsg 0)).rethrown = true ↔
      (retryJob "evt4" "w4" exMsg 0).attemptsMade < 3) :=
  ⟨rfl, rfl,
   (C4_missing_account_is_retried_below_ceiling (retryDb "evt4") 0
      (retryJob "evt4" "w4" exMsg 0) (retryEntry exMsg) [] rfl rfl).2⟩

/-- Writing a key makes it present with the written value. -/
theorem lookupKey_setKey_self (m : List (String × Webhook.HistVal)) (k : String)
    (v : Webhook.HistVal) :
    Webhook.lookupKey (Webhook.setKey m k v) k = some v := by
  induction m with
  | nil => simp [Webhook.setKey, Webhook.lookupKey]
  | cons p rest ih =>
      unfold Webhook.setKey
      by_cases hp : (p.1 == k) = true
      · rw [if_pos hp]
        simp [Webhook.lookupKey]
      · rw [if_neg hp]
        rw [Bool.not_eq_true] at hp
        unfold Webhook.lookupKey at ih ⊢
        rw [List.find?_cons_of_neg _ (by simp [hp])]
        exact ih

/-- Writing a key leaves every other key unchanged. -/
theorem lookupKey_setKey_ne (m : List (String × Webhook.HistVal)) (k k2 : String)
    (v : Webhook.HistVal) (h : k2 ≠ k) :
    Webhook.lookupKey (Webhook.setKey m k v) k2 = Webhook.lookupKey m k2 := by
  induction m with
  | nil =>
      simp [Webhook.setKey, Webhook.lookupKey]
      intro hk
      exact absurd hk.symm h
  | cons p rest ih =>
      unfold Webhook.setKey
      by_cases hp : (p.1 == k) = true
      · rw [if_pos hp]
        have hpk : p.1 = k := by simpa using hp
        unfold Webhook.lookupKey
        rw [List.find?_cons_of_neg _ (by simp; exact fun hk => absurd hk.symm h),
            List.find?_cons_of_neg _ (by simp [hpk]; exact fun hk => absurd hk.symm h)]
      · rw [if_neg hp]
        unfold Webhook.lookupKey at ih ⊢
        by_cases hq : (p.1 == k2) = true
        · have h1 : List.find? (fun q => q.1 == k2) (p :: Webhook.setKey rest k v) = some p :=
            List.find?_cons_of_pos _ hq
          have h2 : List.find? (fun q => q.1 == k2) (p :: rest) = some p :=
            List.find?_cons_of_pos _ hq
          rw [h1, h2]
        · rw [Bool.not_eq_true] at hq
          rw [List.find?_cons_of_neg _ (by simp [hq]),
              List.find?_cons_of_neg _ (by simp [hq])]
          exact ih

/-- C5 counterexample: an `APPROVED` event addressed to an existing template
whose history is empty.  The status does become `approved`, but the history —
a keyed object updated by assignment, not an append-only log — ends with two
entries (`statusUpdate` and `approved`), not exactly one new entry. -/
theorem C5_counterexample :
    Webhook.updateTemplateStatus exTemplateDb 7 "acc5" exApproved =
      .ok { exTemplateDb with
              templates := [{ exTemplate with
                                status := "approved"
                                history := [("statusUpdate", .rawUpdate exApproved),
                                            ("approved", .timestamp 7)] }] } ∧
    ([("statusUpdate", Webhook.HistVal.rawUpdate exApproved),
      ("approved", Webhook.HistVal.timestamp 7)].length ≠ exTemplate.history.length + 1) := by
  decide

/-- C5 amended: an `APPROVED` event addressed to an existing template sets its
status to `approved` and updates the history object by key assignment — the
raw event lands under the `statusUpdate` key and the current time under the
`approved` key, every other key being preserved (so a first event on an empty
history adds two entries and a repeated event adds none); an event of an
unrecognized kind leaves the status unchanged while still writing the raw
event under `statusUpdate` and a kind-specific lowercased timestamp key. -/
theorem C5_approved_event_updates_status_and_history_keys :
    (∀ (db : Webhook.DB) (now : Nat) (acc nm : String) (u : Webhook.TemplateUpdate)
        (t : Webhook.Template),
      u.event = some "APPROVED" →
      Webhook.templateNameOf u = some nm →
      db.templates.find? (fun tt => tt.wabaAccountId == acc && tt.name == nm) = some t →
      (Webhook.updateTemplateStatus db now acc u =
        .ok { db with templates := db.templates.map (fun tt => if tt.id == t.id then
                { tt with status := "approved"
                          history := Webhook.setKey (Webhook.setKey
                            (Webhook.setKey t.history "statusUpdate" (.rawUpdate u))
                            (lowerStr "APPROVED") (.timestamp now)) "approved" (.timestamp now) }
              else tt) } ∧
       Webhook.lookupKey (Webhook.setKey (Webhook.setKey
           (Webhook.setKey t.history "statusUpdate" (.rawUpdate u))
           (lowerStr "APPROVED") (.timestamp now)) "approved" (.timestamp now))
         "statusUpdate" = some (.rawUpdate u) ∧
       Webhook.lookupKey (Webhook.setKey (Webhook.setKey
           (Webhook.setKey t.history "statusUpdate" (.rawUpdate u))
           (lowerStr "APPROVED") (.timestamp now)) "approved" (.timestamp now))
         "approved" = some (.timestamp now) ∧
       ∀ k, k ≠ "statusUpdate" → k ≠ "approved" →
         Webhook.lookupKey (Webhook.setKey (Webhook.setKey
             (Webhook.setKey t.history "statusUpdate" (.rawUpdate u))
             (lowerStr "APPROVED") (.timestamp now)) "approved" (.timestamp now)) k =
           Webhook.lookupKey t.history k)) ∧
    (∀ (db : Webhook.DB) (now : Nat) (acc nm ev : String) (u : Webhook.TemplateUpdate)
        (t : Webhook.Template),
      u.event = some ev →
      ev ≠ "APPROVED" →
      ev ≠ "REJECTED" →
      lowerStr ev ≠ "statusUpdate" →
      Webhook.templateNameOf u = some nm →
      db.templates.find? (fun tt => tt.wabaAccountId == acc && tt.name == nm) = some t →
      (Webhook.updateTemplateStatus db now acc u =
        .ok { db with templates := db.templates.map (fun tt => if tt.id == t.id then
                { tt with status := t.status
                          history := Webhook.setKey
                            (Webhook.setKey t.history "statusUpdate" (.rawUpdate u))
                            (lowerStr ev) (.timestamp now) }
              else tt) } ∧
       Webhook.lookupKey (Webhook.setKey
           (Webhook.setKey t.history "statusUpdate" (.rawUpdate u))
           (lowerStr ev) (.timestamp now)) "statusUpdate" = some (.rawUpdate u) ∧
       Webhook.lookupKey (Webhook.setKey
           (Webhook.setKey t.history "statusUpdate" (.rawUpdate u))
           (lowerStr ev) (.timestamp now)) (lowerStr ev) = some (.timestamp now) ∧
       ∀ k, k ≠ "statusUpdate" → k ≠ lowerStr ev →
         Webhook.lookupKey (Webhook.setKey
             (Webhook.setKey t.history "statusUpdate" (.rawUpdate u))
             (lowerStr ev) (.timestamp now)) k = Webhook.lookupKey t.history k)) := by
  have hlow : lowerStr "APPROVED" = "approved" := by decide
  constructor
  · intro db now acc nm u t hev hname hfind
    refine ⟨?_, ?_, ?_, ?_⟩
    · unfold Webhook.updateTemplateStatus
      simp [hname, hfind, hev]
    · rw [lookupKey_setKey_ne _ _ _ _ (by decide : ("statusUpdate" : String) ≠ "approved"),
          hlow,
          lookupKey_setKey_ne _ _ _ _ (by decide : ("statusUpdate" : String) ≠ "approved"),
          lookupKey_setKey_self]
    · rw [lookupKey_setKey_self]
    · intro k hk1 hk2
      rw [lookupKey_setKey_ne _ _ _ _ hk2, hlow,
          lookupKey_setKey_ne _ _ _ _ hk2,
          lookupKey_setKey_ne _ _ _ _ hk1]
  · intro db now acc nm ev u t hev hA hR hS hname hfind
    have hb1 : (some ev == some "APPROVED") = false := by simp [hA]
    have hb2 : (some ev == some "REJECTED") = false := by simp [hR]
    have hb3 : (ev == "APPROVED") = false := by simp [hA]
    have hb4 : (ev == "REJECTED") = false := by simp [hR]
    refine ⟨?_, ?_, ?_, ?_⟩
    · unfold Webhook.updateTemplateStatus
      simp [hname, hfind, hev, hb1, hb2, hb3, hb4]
    · rw [lookupKey_setKey_ne _ _ _ _ (Ne.symm hS), lookupKey_setKey_self]
    · rw [lookupKey_setKey_self]
    · intro k hk1 hk2
      rw [lookupKey_setKey_ne _ _ _ _ hk2, lookupKey_setKey_ne _ _ _ _ hk1]

/-- Witness for C5: both parts instantiated — the `APPROVED` update and a
`FLAGGED` (unrecognized kind) update addressed to the concrete template. -/
theorem C5_approved_event_updates_status_and_history_keys_witness :
    exApproved.event = some "APPROVED" ∧
    Webhook.templateNameOf exApproved = some "promo" ∧
    exTemplateDb.templates.find?
      (fun tt => tt.wabaAccountId == "acc5" && tt.name == "promo") = some exTemplate ∧
    Webhook.lookupKey (Webhook.setKey (Webhook.setKey
        (Webhook.setKey exTemplate.history "statusUpdate" (.rawUpdate exApproved))
        (lowerStr "APPROVED") (.timestamp 7)) "approved" (.timestamp 7))
      "approved" = some (.timestamp 7) ∧
    exFlagged.event = some "FLAGGED" ∧
    Webhook.updateTemplateStatus exTemplateDb 9 "acc5" exFlagged =
      .ok { exTemplateDb with
              templates := exTemplateDb.templates.map (fun tt =>
                if tt.id == exTemplate.id then
                  { tt with
                      status := exTemplate.status
                      history := Webhook.setKey
                        (Webhook.setKey exTemplate.history "statusUpdate"
                          (.rawUpdate exFlagged))
                        (lowerStr "FLAGGED") (.timestamp 9) }
                else tt) } :=
  ⟨rfl, by decide, by decide,
   (C5_approved_event_updates_status_and_history_keys.1 exTemplateDb 7 "acc5" "promo"
      exApproved exTemplate rfl (by decide) (by decide)).2.2.1,
   rfl,
   (C5_approved_event_updates_status_and_history_keys.2 exTemplateDb 9 "acc5" "promo"
      "FLAGGED" exFlagged exTemplate rfl (by decide) (by decide) (by decide) (by decide)
      (by decide)).1⟩


/-- Boolean membership in the used-codes set coincides with list membership. -/
theorem contains_eq_true_iff_mem (l : List String) (a : String) :
    l.contains a = true ↔ a ∈ l := List.elem_iff

/-- A `false` membership test means the code is not in the set. -/
theorem not_mem_of_contains_eq_false {l : List String} {a : String}
    (h : l.contains a = false) : a ∉ l := by
  intro hm
  rw [(contains_eq_true_iff_mem l a).mpr hm] at h
  exact absurd h (by decide)

/-- Adding a code to the used set makes membership true. -/
theorem contains_setInsert_self (l : List String) (a : String) :
    (Waba.setInsert l a).contains a = true := by
  apply (contains_eq_true_iff_mem _ _).mpr
  unfold Waba.setInsert
  by_cases h : l.contains a = true
  · rw [if_pos h]
    exact (contains_eq_true_iff_mem _ _).mp h
  · rw [if_neg h]
    exact List.mem_cons_self a l

/-- Deleting a code from the used set makes membership false. -/
theorem contains_setRemove_self (l : List String) (a : String) :
    (Waba.setRemove l a).contains a = false := by
  have hnm : a ∉ Waba.setRemove l a := by
    unfold Waba.setRemove
    intro hm
    have h2 := (List.mem_filter.mp hm).2
    simp at h2
  cases hcc : (Waba.setRemove l a).contains a with
  | false => rfl
  | true => exact absurd ((contains_eq_true_iff_mem _ _).mp hcc) hnm

/-- C6: from any state in which the code is already recorded as used (as a
first successful exchange leaves it — third conjunct), a second invocation of
`handleCallback` with that code fails with the code-already-used error, with
an empty event trace: no provider API call is made and the state is
untouched.  Moreover (second conjunct) whenever the token exchange succeeds,
the very next event after that provider call is `markUsed`, before any
further step. -/
theorem C6_replayed_code_fails_before_any_provider_call :
    (∀ (env : Waba.Env) (now : Nat) (st : Waba.ServiceState)
        (code state shopId : String) (shop : Waba.Shop),
      Waba.parseShopId state = some shopId →
      st.db.shops.find? (fun s => s.id == shopId) = some shop →
      st.usedCodes.contains code = true →
      Waba.handleCallback env now st code state = (.error Waba.msgCodeUsed, st, [])) ∧
    (∀ (env : Waba.Env) (now : Nat) (st : Waba.ServiceState)
        (code state shopId : String) (shop : Waba.Shop) (tr : Waba.TokenResp),
      Waba.parseShopId state = some shopId →
      st.db.shops.find? (fun s => s.id == shopId) = some shop →
      st.usedCodes.contains code = false →
      env.tokenExchange = .ok tr →
      ∃ evs, (Waba.handleCallback env now st code state).2.2 =
        Waba.Ev.apiCall "GET /oauth/access_token code" :: Waba.Ev.markUsed code :: evs) ∧
    (∀ (env : Waba.Env) (now : Nat) (st : Waba.ServiceState)
        (code state : String) (r : Waba.CallbackResult) (st2 : Waba.ServiceState)
        (evs : List Waba.Ev),
      Waba.handleCallback env now st code state = (.ok r, st2, evs) →
      st2.usedCodes.contains code = true) := by
  refine ⟨?_, ?_, ?_⟩
  · intro env now st code state shopId shop hp hf hu
    have hm : code ∈ st.usedCodes := (contains_eq_true_iff_mem _ _).mp hu
    simp [Waba.handleCallback, hp, hf, hm]
  · intro env now st code state shopId shop tr hp hf hu htok
    have hnm : code ∉ st.usedCodes := not_mem_of_contains_eq_false hu
    cases hb : (Waba.afterExchange env now st.db state shopId tr.accessToken).1 with
    | ok r =>
        exact ⟨(Waba.afterExchange env now st.db state shopId tr.accessToken).2.2,
          by simp [Waba.handleCallback, hp, hf, hnm, htok, hb]⟩
    | error e =>
        exact ⟨(Waba.afterExchange env now st.db state shopId tr.accessToken).2.2 ++
            [Waba.Ev.unmarkUsed code],
          by simp [Waba.handleCallback, hp, hf, hnm, htok, hb]⟩
  · intro env now st code state r st2 evs heq
    cases hp : Waba.parseShopId state with
    | none => simp [Waba.handleCallback, hp] at heq
    | some shopId =>
      cases hf : st.db.shops.find? (fun s => s.id == shopId) with
      | none => simp [Waba.handleCallback, hp, hf] at heq
      | some shop =>
        by_cases hm : code ∈ st.usedCodes
        · simp [Waba.handleCallback, hp, hf, hm] at heq
        · cases ht : env.tokenExchange with
          | error e => simp [Waba.handleCallback, hp, hf, hm, ht] at heq
          | ok tr =>
            cases hb : (Waba.afterExchange env now st.db state shopId tr.accessToken).1 with
            | error e => simp [Waba.handleCallback, hp, hf, hm, ht, hb] at heq
            | ok rr =>
                simp [Waba.handleCallback, hp, hf, hm, ht, hb] at heq
                rw [← heq.2.1]
                exact contains_setInsert_self st.usedCodes code

/-- Witness for C6: concrete replayed-code rejection, the markUsed-right-after-
exchange trace shape, and a successful run marking the code used. -/
theorem C6_replayed_code_fails_before_any_provider_call_witness :
    exServiceStateUsed.usedCodes.contains "c1" = true ∧
    Waba.handleCallback envEmptyListing 0 exServiceStateUsed "c1" "shop1:new" =
      (.error Waba.msgCodeUsed, exServiceStateUsed, []) ∧
    (Waba.handleCallback envCode100 0 exServiceState "c1" "shop1:new").2.2.take 2 =
      [Waba.Ev.apiCall "GET /oauth/access_token code", Waba.Ev.markUsed "c1"] ∧
    ({ usedCodes := ["c1"], db := exServiceState.db } : Waba.ServiceState).usedCodes.contains
      "c1" = true := by
  refine ⟨by decide, ?_, ?_, ?_⟩
  · exact (C6_replayed_code_fails_before_any_provider_call).1 envEmptyListing 0
      exServiceStateUsed "c1" "shop1:new" "shop1" { id := "shop1", name := "Loja" }
      (by decide) (by decide) (by decide)
  · obtain ⟨evs, hevs⟩ := (C6_replayed_code_fails_before_any_provider_call).2.1 envCode100 0
      exServiceState "c1" "shop1:new" "shop1" { id := "shop1", name := "Loja" }
      { accessToken := "tok" } (by decide) (by decide) (by decide) rfl
    rw [hevs]
    rfl
  · exact (C6_replayed_code_fails_before_any_provider_call).2.2 envCode100 0 exServiceState
      "c1" "shop1:new"
      (.needsEmbeddedSignup Waba.msgNeedsSignup
        (Waba.getEmbeddedSignupUrl envCode100.cfg "shop1" "new"))
      { usedCodes := ["c1"], db := exServiceState.db }
      [Waba.Ev.apiCall "GET /oauth/access_token code", Waba.Ev.markUsed "c1",
       Waba.Ev.apiCall "GET /oauth/access_token fb_exchange_token",
       Waba.Ev.apiCall "GET /debug_token",
       Waba.Ev.apiCall "GET /me/owned_whatsapp_business_accounts"]
      (by decide)

/-- C7: whenever an invocation starting from a state in which the code is not
yet used ends in an error — whether the failure happened before, during, or
after the exchange, in particular after a successful exchange but before the
account was persisted — the code is not in the used set afterwards (the catch
performs the compensating removal), so the user can retry with the same code;
and if the token exchange itself fails, the code is never even marked used. -/
theorem C7_failed_callback_releases_the_code :
    (∀ (env : Waba.Env) (now : Nat) (st : Waba.ServiceState)
        (code state m : String) (st2 : Waba.ServiceState) (tr2 : List Waba.Ev),
      st.usedCodes.contains code = false →
      Waba.handleCallback env now st code state = (.error m, st2, tr2) →
      st2.usedCodes.contains code = false) ∧
    (∀ (env : Waba.Env) (now : Nat) (st : Waba.ServiceState)
        (code state : String) (e : Waba.ApiError),
      env.tokenExchange = .error e →
      Waba.Ev.markUsed code ∉ (Waba.handleCallback env now st code state).2.2) := by
  constructor
  · intro env now st code state m st2 tr2 hnot heq
    have hnm : code ∉ st.usedCodes := not_mem_of_contains_eq_false hnot
    cases hp : Waba.parseShopId state with
    | none =>
        simp [Waba.handleCallback, hp] at heq
        rw [← heq.2.1]
        exact hnot
    | some shopId =>
      cases hf : st.db.shops.find? (fun s => s.id == shopId) with
      | none =>
          simp [Waba.handleCallback, hp, hf] at heq
          rw [← heq.2.1]
          exact hnot
      | some shop =>
        cases ht : env.tokenExchange with
        | error e =>
            simp [Waba.handleCallback, hp, hf, hnm, ht] at heq
            rw [← heq.2.1]
            exact contains_setRemove_self st.usedCodes code
        | ok tr =>
          cases hb : (Waba.afterExchange env now st.db state shopId tr.accessToken).1 with
          | ok rr => simp [Waba.handleCallback, hp, hf, hnm, ht, hb] at heq
          | error e =>
              simp [Waba.handleCallback, hp, hf, hnm, ht, hb] at heq
              rw [← heq.2.1]
              exact contains_setRemove_self (Waba.setInsert st.usedCodes code) code
  · intro env now st code state e htok
    cases hp : Waba.parseShopId state with
    | none => simp [Waba.handleCallback, hp]
    | some shopId =>
      cases hf : st.db.shops.find? (fun s => s.id == shopId) with
      | none => simp [Waba.handleCallback, hp, hf]
      | some shop =>
        by_cases hm : code ∈ st.usedCodes
        · simp [Waba.handleCallback, hp, hf, hm]
        · simp [Waba.handleCallback, hp, hf, hm, htok]

/-- Witness for C7: a concrete failing exchange leaves the code unused and
never marks it. -/
theorem C7_failed_callback_releases_the_code_witness :
    exServiceState.usedCodes.contains "c1" = false ∧
    Waba.handleCallback envExchangeFails 0 exServiceState "c1" "shop1:new" =
      (.error (Waba.msgWrap "network down"), exServiceState,
       [Waba.Ev.apiCall "GET /oauth/access_token code"]) ∧
    exServiceState.usedCodes.contains "c1" = false ∧
    envExchangeFails.tokenExchange = .error plainApiError ∧
    Waba.Ev.markUsed "c1" ∉
      (Waba.handleCallback envExchangeFails 0 exServiceState "c1" "shop1:new").2.2 := by
  refine ⟨by decide, by decide, ?_, rfl, ?_⟩
  · exact (C7_failed_callback_releases_the_code).1 envExchangeFails 0 exServiceState "c1"
      "shop1:new" (Waba.msgWrap "network down") exServiceState
      [Waba.Ev.apiCall "GET /oauth/access_token code"] (by decide) (by decide)
  · exact (C7_failed_callback_releases_the_code).2 envExchangeFails 0 exServiceState "c1"
      "shop1:new" plainApiError rfl

/-- C8 counterexample: a negotiation in connection mode `new` in which every
discovery method completes but yields no account identifier (the direct
listing succeeds with an empty result).  `handleCallback` throws the wrapped
`No WhatsApp Business Account found` error instead of returning a structured
needs-further-signup result — the needs-signup path exists only in the catch
of the direct listing, for provider error code 100. -/
theorem C8_counterexample_empty_listing_throws_in_new_mode :
    (Waba.handleCallback envEmptyListing 0 exServiceState "c1" "shop1:new").1 =
      .error (Waba.msgWrap Waba.msgNoWaba) := by
  decide

/-- C8 amended: the structured needs-further-signup result (mode `new`) and
the descriptive not-directly-accessible error (mode `existing`) are produced
exactly when the direct-listing discovery call fails with provider error code
100 and the earlier discovery methods found no candidate; when discovery
merely resolves nothing without such an error, `handleCallback` fails with
the `No WhatsApp Business Account found` error regardless of the mode. -/
theorem C8_needs_signup_requires_discovery_error_100 :
    (∀ (env : Waba.Env) (now : Nat) (st : Waba.ServiceState)
        (code state shopId : String) (shop : Waba.Shop) (tr : Waba.TokenResp)
        (le de e : Waba.ApiError),
      Waba.parseShopId state = some shopId →
      st.db.shops.find? (fun s => s.id == shopId) = some shop →
      st.usedCodes.contains code = false →
      env.tokenExchange = .ok tr →
      env.longExchange = .error le →
      env.debugToken = .error de →
      env.ownedDirect = .error e →
      e.respErrorCode = some 100 →
      splitColon state = [shopId, "new"] →
      includesColon state = true →
      shopId ≠ "" →
      (Waba.handleCallback env now st code state).1 =
        .ok (.needsEmbeddedSignup Waba.msgNeedsSignup
          (Waba.getEmbeddedSignupUrl env.cfg shopId "new"))) ∧
    (∀ (env : Waba.Env) (now : Nat) (st : Waba.ServiceState)
        (code state shopId : String) (shop : Waba.Shop) (tr : Waba.TokenResp)
        (le de e : Waba.ApiError),
      Waba.parseShopId state = some shopId →
      st.db.shops.find? (fun s => s.id == shopId) = some shop →
      st.usedCodes.contains code = false →
      env.tokenExchange = .ok tr →
      env.longExchange = .error le →
      env.debugToken = .error de →
      env.ownedDirect = .error e →
      e.respErrorCode = some 100 →
      splitColon state = [shopId, "existing"] →
      includesColon state = true →
      (Waba.handleCallback env now st code state).1 =
        .error (Waba.msgWrap Waba.msgExistingNotAccessible)) ∧
    (∀ (env : Waba.Env) (now : Nat) (st : Waba.ServiceState)
        (code state shopId : String) (shop : Waba.Shop) (tr : Waba.TokenResp)
        (le de : Waba.ApiError),
      Waba.parseShopId state = some shopId →
      st.db.shops.find? (fun s => s.id == shopId) = some shop →
      st.usedCodes.contains code = false →
      env.tokenExchange = .ok tr →
      env.longExchange = .error le →
      env.debugToken = .error de →
      env.ownedDirect = .ok [] →
      (Waba.handleCallback env now st code state).1 =
        .error (Waba.msgWrap Waba.msgNoWaba)) := by
  refine ⟨?_, ?_, ?_⟩
  · intro env now st code state shopId shop tr le de e hp hf hu htok hlong hdbg hdir hcode
      hsplit hcolon hne
    have hnm : code ∉ st.usedCodes := not_mem_of_contains_eq_false hu
    have hne2 : (shopId == "") = false := beq_eq_false_iff_ne.mpr hne
    have hbody : (Waba.afterExchange env now st.db state shopId tr.accessToken).1 =
        .ok (.needsEmbeddedSignup Waba.msgNeedsSignup
          (Waba.getEmbeddedSignupUrl env.cfg shopId "new")) := by
      simp [Waba.afterExchange, Waba.resolveWaba, Waba.method1, Waba.method2, Waba.method3,
            hlong, hdbg, hdir, hcode, hsplit, hcolon, hne2, jsOrStr, jsOrOptStr,
            List.getD]
    simp [Waba.handleCallback, hp, hf, hnm, htok, hbody]
  · intro env now st code state shopId shop tr le de e hp hf hu htok hlong hdbg hdir hcode
      hsplit hcolon
    have hnm : code ∉ st.usedCodes := not_mem_of_contains_eq_false hu
    have hbody : (Waba.afterExchange env now st.db state shopId tr.accessToken).1 =
        .error (.badRequest Waba.msgExistingNotAccessible) := by
      simp [Waba.afterExchange, Waba.resolveWaba, Waba.method1, Waba.method2, Waba.method3,
            hlong, hdbg, hdir, hcode, hsplit, hcolon, List.getD]
    simp [Waba.handleCallback, hp, hf, hnm, htok, hbody, Waba.innerErrMsg, jsOrStr,
          (show Waba.msgExistingNotAccessible ≠ "" from by decide)]
  · intro env now st code state shopId shop tr le de hp hf hu htok hlong hdbg hdir
    have hnm : code ∉ st.usedCodes := not_mem_of_contains_eq_false hu
    have hbody : (Waba.afterExchange env now st.db state shopId tr.accessToken).1 =
        .error (.badRequest Waba.msgNoWaba) := by
      simp [Waba.afterExchange, Waba.resolveWaba, Waba.method1, Waba.method2, Waba.method3,
            hlong, hdbg, hdir]
    simp [Waba.handleCallback, hp, hf, hnm, htok, hbody, Waba.innerErrMsg, jsOrStr,
          (show Waba.msgNoWaba ≠ "" from by decide)]

/-- Witness for C8: the three branches at concrete environments — error code
100 with mode `new` (structured result), error code 100 with mode `existing`
(descriptive error), and an empty listing (generic error). -/
theorem C8_needs_signup_requires_discovery_error_100_witness :
    Waba.parseShopId "shop1:new" = some "shop1" ∧
    envCode100.ownedDirect = .error code100Error ∧
    code100Error.respErrorCode = some 100 ∧
    (Waba.handleCallback envCode100 0 exServiceState "c1" "shop1:new").1 =
      .ok (.needsEmbeddedSignup Waba.msgNeedsSignup
        (Waba.getEmbeddedSignupUrl envCode100.cfg "shop1" "new")) ∧
    (Waba.handleCallback envCode100 0 exServiceState "c1" "shop1:existing").1 =
      .error (Waba.msgWrap Waba.msgExistingNotAccessible) ∧
    envEmptyListing.ownedDirect = .ok [] ∧
    (Waba.handleCallback envEmptyListing 0 exServiceState "c1" "shop1:new").1 =
      .error (Waba.msgWrap Waba.msgNoWaba) := by
  refine ⟨by decide, rfl, rfl, ?_, ?_, rfl, ?_⟩
  · exact (C8_needs_signup_requires_discovery_error_100).1 envCode100 0 exServiceState
      "c1" "shop1:new" "shop1" { id := "shop1", name := "Loja" } { accessToken := "tok" }
      plainApiError plainApiError code100Error (by decide) (by decide) (by decide)
      rfl rfl rfl rfl rfl (by decide) (by decide) (by decide)
  · exact (C8_needs_signup_requires_discovery_error_100).2.1 envCode100 0 exServiceState
      "c1" "shop1:existing" "shop1" { id := "shop1", name := "Loja" } { accessToken := "tok" }
      plainApiError plainApiError code100Error (by decide) (by decide) (by decide)
      rfl rfl rfl rfl rfl (by decide) (by decide)
  · exact (C8_needs_signup_requires_discovery_error_100).2.2 envEmptyListing 0 exServiceState
      "c1" "shop1:new" "shop1" { id := "shop1", name := "Loja" } { accessToken := "tok" }
      plainApiError plainApiError (by decide) (by decide) (by decide) rfl rfl rfl rfl

/-- C9 counterexample: the explicit synchronous re-registration entry point
invoked while the provider subscription call fails.  The result is `.ok` with
the database unchanged (the account keeps `webhookVerified = false`): the
registration failure is swallowed inside `registerWebhook` and is NOT
propagated to the caller. -/
theorem C9_counterexample_sync_failure_not_propagated :
    Waba.registerWebhookForAccount regEnvFail exRegDb "a1" = .ok exRegDb := by
  decide

/-- C9 amended: `registerWebhook` never throws past its own boundary in either
invocation style — registration failures are caught and only logged — so the
fire-and-forget invocation cannot fail the connection flow, and the explicit
synchronous re-registration entry point also returns successfully whenever the
account row exists, propagating only the missing-account error. -/
theorem C9_register_webhook_never_throws :
    (∀ (env : Waba.RegEnv) (db : Waba.ServiceDb) (w t : String),
      ∃ db2, Waba.registerWebhook env db w t = .ok db2) ∧
    (∀ (env : Waba.RegEnv) (db : Waba.ServiceDb) (aid : String) (row : Waba.WabaAccountRow),
      db.wabaAccounts.find? (fun a => a.id == aid) = some row →
      ∃ db2, Waba.registerWebhookForAccount env db aid = .ok db2) ∧
    (∀ (env : Waba.RegEnv) (db : Waba.ServiceDb) (aid : String),
      db.wabaAccounts.find? (fun a => a.id == aid) = none →
      Waba.registerWebhookForAccount env db aid =
        .error ("WABA account not found: " ++ aid)) := by
  refine ⟨?_, ?_, ?_⟩
  · intro env db w t
    unfold Waba.registerWebhook
    cases henv : env.subscribedApps w t with
    | ok u => exact ⟨_, rfl⟩
    | error e => exact ⟨_, rfl⟩
  · intro env db aid row h
    unfold Waba.registerWebhookForAccount
    simp only [h]
    unfold Waba.registerWebhook
    cases henv : env.subscribedApps row.wabaId (Waba.decrypt row.encryptedToken) with
    | ok u => exact ⟨_, rfl⟩
    | error e => exact ⟨_, rfl⟩
  · intro env db aid h
    unfold Waba.registerWebhookForAccount
    rw [h]

/-- Witness for C9: both entry points at concrete inputs — failing and
succeeding registration environments and a missing account. -/
theorem C9_register_webhook_never_throws_witness :
    exRegDb.wabaAccounts.find? (fun a => a.id == "a1") = some exAccountRow ∧
    isOkE (Waba.registerWebhookForAccount regEnvOk exRegDb "a1") = true ∧
    isOkE (Waba.registerWebhook regEnvFail exRegDb "w1" "tok") = true ∧
    emptyRegDb.wabaAccounts.find? (fun a => a.id == "zz") = none ∧
    Waba.registerWebhookForAccount regEnvFail emptyRegDb "zz" =
      .error ("WABA account not found: " ++ "zz") := by
  refine ⟨by decide, ?_, ?_, rfl, ?_⟩
  · obtain ⟨db2, h⟩ := (C9_register_webhook_never_throws).2.1 regEnvOk exRegDb "a1"
      exAccountRow (by decide)
    rw [h]
    rfl
  · obtain ⟨db2, h⟩ := (C9_register_webhook_never_throws).1 regEnvFail exRegDb "w1" "tok"
    rw [h]
    rfl
  · exact (C9_register_webhook_never_throws).2.2 regEnvFail emptyRegDb "zz" rfl
